import Mathlib

/-!
Shallow embedding of the tenant-isolation and call-lifecycle core of the
voho multi-tenant SaaS backend (Express + Mongoose), translated from:

* `backend/middleware/tenant.js`  — tenant resolution middleware
* `backend/middleware/auth.js`    — `authenticate` / cross-tenant check
* `backend/utils/auditLogger.js`  — `logAudit` (swallow-failures audit sink)
* `backend/models/AuditLog.js`    — audit schema (required tenantId, action enum)
* `backend/routes/auth.js`        — `signup` / `login`
* `backend/routes/calls.js`       — `getStatus` / `getTranscript` routes
* `backend/services/ultravox.js`  — provider client (status / transcript)

Conventions of the embedding:
* Mongo ObjectIds, emails, subdomains are `String`.
* JavaScript truthiness is modelled explicitly where the source relies on it
  (`if (status.duration)`, `if (subdomain)`, ...): `none`, `some 0` and
  `some ""` are falsy.
* Awaited storage / provider calls that can fail are driven by explicit
  boolean oracles or `Except` inputs; a `false` oracle corresponds to the
  awaited call throwing.
* `JSON.stringify` / `JSON.parse` of a transcript (an array of objects built
  by `JSON.parse` of provider output) round-trips; the cached transcript is
  therefore stored structurally, serialization modelled as the identity
  round trip.
* bcrypt `comparePassword` is modelled as equality with the stored
  (hashed) password string.
-/

/-- Tenant record (`backend/models/Tenant.js`): id, unique subdomain,
display name, active flag.  Branding is irrelevant to the claims. -/
structure Tenant where
  id : String
  subdomain : String
  name : String
  isActive : Bool
deriving DecidableEq, Repr

/-- User record (`User` model as documented in ARCHITECTURE.md and used by the
routes): id, email, hashed password, owning tenant, active flag, role. -/
structure User where
  id : String
  email : String
  password : String
  tenantId : String
  isActive : Bool
  role : String
deriving DecidableEq, Repr

/-- Audit log entry (`backend/models/AuditLog.js` fields). -/
structure AuditEntry where
  tenantId : Option String
  userId : Option String
  action : String
  details : List (String × String)
  ip : String
  userAgent : String
  timestamp : Nat
deriving DecidableEq, Repr

/-- The closed `enum` of the `action` field in `auditLogSchema`. -/
def auditActions : List String :=
  ["user.login", "user.logout", "user.signup", "user.failed_login",
   "tenant.created", "tenant.updated", "call.created", "call.completed",
   "branding.updated", "data.accessed"]

/-- JS truthiness of an optional number (`null`/`undefined`/`0` are falsy). -/
def truthyOptInt : Option Int → Bool
  | none => false
  | some n => n != 0

/-- JS truthiness of an optional string (`null`/`undefined`/`""` are falsy). -/
def truthyOptStr : Option String → Bool
  | none => false
  | some s => !s.isEmpty

/-- JS truthiness of a string (`""` is falsy). -/
def truthyStr (s : String) : Bool := !s.isEmpty

/-- Mongoose validation of `auditLogSchema`: `tenantId` is `required: true`
and `action` must belong to the schema `enum`. -/
def auditEntryValid (e : AuditEntry) : Bool :=
  e.tenantId.isSome && auditActions.contains e.action

/-- `AuditLog.create(...)` (`backend/models/AuditLog.js`): fails when the
store is down or when schema validation rejects the entry; on success the
entry is appended to the log. -/
def auditLogCreate (storeOk : Bool) (log : List AuditEntry) (e : AuditEntry) :
    Except String (List AuditEntry) :=
  if !storeOk then Except.error "storage failure"
  else if !auditEntryValid e then Except.error "validation failed"
  else Except.ok (log ++ [e])

/-- `logAudit` (`backend/utils/auditLogger.js`) as the caller observes it:
the `try { await AuditLog.create(...) } catch { console.error(...) }` body
returns normally in every case; on a caught failure the log is unchanged. -/
def logAuditRun (storeOk : Bool) (log : List AuditEntry) (e : AuditEntry) :
    Except String (List AuditEntry) :=
  match auditLogCreate storeOk log e with
  | Except.ok l => Except.ok l
  | Except.error _ => Except.ok log

/-- The resulting audit log after `logAudit` (total: failures swallowed). -/
def logAudit (storeOk : Bool) (log : List AuditEntry) (e : AuditEntry) :
    List AuditEntry :=
  match logAuditRun storeOk log e with
  | Except.ok l => l
  | Except.error _ => log

/-- The tenantless failed-login audit entry written by the `POST /login`
variant before any tenant is resolved (`routes/auth.js` variant,
`logAudit({ action: 'user.failed_login', details: { email }, ... })`). -/
def tenantlessFailedLoginEntry : AuditEntry :=
  { tenantId := none
  , userId := none
  , action := "user.failed_login"
  , details := [("email", "user@acme.com")]
  , ip := "203.0.113.7"
  , userAgent := "curl/8.0"
  , timestamp := 17 }

/-- Claim C9: for every audit entry and every outcome of the underlying
store write, `logAudit` never throws and never returns an error to its
caller; a storage failure is caught inside and leaves the log unchanged,
so the triggering operation is unaffected. -/
theorem logAudit_never_fails :
    (∀ (storeOk : Bool) (log : List AuditEntry) (e : AuditEntry),
        logAuditRun storeOk log e = Except.ok (logAudit storeOk log e)) ∧
    (∀ (log : List AuditEntry) (e : AuditEntry), logAudit false log e = log) := by
  constructor
  · intro storeOk log e
    unfold logAudit logAuditRun auditLogCreate
    cases storeOk <;> by_cases h : auditEntryValid e <;> simp [h]
  · intro log e
    unfold logAudit logAuditRun auditLogCreate
    simp

/-- Claim C10: `auditLogSchema` marks `tenantId` as `required: true`, so an
entry submitted with no tenant id — such as the failed-login entry written
before tenant resolution — fails schema validation inside
`AuditLog.create`; `logAudit` swallows the failure and the entry is
silently dropped instead of persisted. -/
theorem logAudit_drops_tenantless_entry :
    auditLogCreate true [] tenantlessFailedLoginEntry = Except.error "validation failed" ∧
    logAudit true [] tenantlessFailedLoginEntry = [] ∧
    auditActions.contains tenantlessFailedLoginEntry.action = true :=
  ⟨rfl, rfl, rfl⟩

/-- Outcome of `jwt.verify` on the extracted bearer token
(`backend/middleware/auth.js`): the token may be absent, malformed
(`JsonWebTokenError`), expired (`TokenExpiredError`), or valid with a
decoded `userId`. -/
inductive TokenCheck where
  | missing
  | malformed
  | expired
  | valid (userId : String)
deriving DecidableEq, Repr

/-- Response of the `authenticate` middleware: attach the auth context and
continue, or answer 401 / 403. -/
inductive AuthOutcome where
  | ok (userId : String) (tenantId : String)
  | unauthenticated (msg : String)
  | forbidden (msg : String)
deriving DecidableEq, Repr

/-- `User.findById(decoded.userId)`. -/
def findUserById (users : List User) (uid : String) : Option User :=
  users.find? (fun u => u.id == uid)

/-- The audit entry written by `authenticate` on a cross-tenant violation:
action `data.accessed`, details naming the violation and both tenant ids. -/
def crossTenantAuditEntry (reqTenant : String) (u : User) (ip ua : String)
    (now : Nat) : AuditEntry :=
  { tenantId := some reqTenant
  , userId := some u.id
  , action := "data.accessed"
  , details := [("violation", "cross_tenant_access_attempt"),
                ("requestedTenant", reqTenant),
                ("userTenant", u.tenantId)]
  , ip := ip
  , userAgent := ua
  , timestamp := now }

/-- `authenticate` (`backend/middleware/auth.js`): extract and verify the
bearer token, load the user, and — when the request carries a resolved
tenant context — enforce the tenant-match check, auditing and answering
403 on mismatch.  Returns the outcome together with the audit log. -/
def authenticate (users : List User) (auditOk : Bool) (log : List AuditEntry)
    (tok : TokenCheck) (reqTenantId : Option String) (ip ua : String)
    (now : Nat) : AuthOutcome × List AuditEntry :=
  match tok with
  | TokenCheck.missing => (AuthOutcome.unauthenticated "Authentication required", log)
  | TokenCheck.malformed => (AuthOutcome.unauthenticated "Invalid token", log)
  | TokenCheck.expired => (AuthOutcome.unauthenticated "Token expired", log)
  | TokenCheck.valid uid =>
    match findUserById users uid with
    | none => (AuthOutcome.unauthenticated "Invalid or inactive user", log)
    | some u =>
      if !u.isActive then
        (AuthOutcome.unauthenticated "Invalid or inactive user", log)
      else
        match reqTenantId with
        | some rt =>
          if u.tenantId != rt then
            (AuthOutcome.forbidden "Access denied",
             logAudit auditOk log (crossTenantAuditEntry rt u ip ua now))
          else (AuthOutcome.ok u.id u.tenantId, log)
        | none => (AuthOutcome.ok u.id u.tenantId, log)

/-- Claim C1: an authenticated request with a resolved tenant context whose
tenant id differs from the token user's tenant id fails with 403 Forbidden
regardless of the (valid) token, with exactly one cross-tenant audit entry —
carrying both tenant ids — written before the error is returned; when the
audit store is down the entry is dropped but the 403 is returned all the
same. -/
theorem authenticate_cross_tenant_forbidden
    (users : List User) (auditOk : Bool) (log : List AuditEntry)
    (uid rt ip ua : String) (now : Nat) (u : User)
    (hfind : findUserById users uid = some u)
    (hactive : u.isActive = true)
    (hmismatch : u.tenantId ≠ rt) :
    (authenticate users auditOk log (TokenCheck.valid uid) (some rt) ip ua now).fst
        = AuthOutcome.forbidden "Access denied"
    ∧ (authenticate users true log (TokenCheck.valid uid) (some rt) ip ua now).snd
        = log ++ [crossTenantAuditEntry rt u ip ua now]
    ∧ (authenticate users true log (TokenCheck.valid uid) (some rt) ip ua now).snd.length
        = log.length + 1
    ∧ ("requestedTenant", rt) ∈ (crossTenantAuditEntry rt u ip ua now).details
    ∧ ("userTenant", u.tenantId) ∈ (crossTenantAuditEntry rt u ip ua now).details
    ∧ (authenticate users false log (TokenCheck.valid uid) (some rt) ip ua now).snd
        = log := by
  have hbne : (u.tenantId != rt) = true := by
    simp [bne_iff_ne, hmismatch]
  have hvalid : auditEntryValid (crossTenantAuditEntry rt u ip ua now) = true := by
    simp [auditEntryValid, crossTenantAuditEntry, auditActions]
  refine ⟨?_, ?_, ?_, ?_, ?_, ?_⟩
  · simp [authenticate, hfind, hactive, hbne]
  · simp [authenticate, hfind, hactive, hbne, logAudit, logAuditRun,
          auditLogCreate, hvalid]
  · simp [authenticate, hfind, hactive, hbne, logAudit, logAuditRun,
          auditLogCreate, hvalid]
  · simp [crossTenantAuditEntry]
  · simp [crossTenantAuditEntry]
  · simp [authenticate, hfind, hactive, hbne, logAudit, logAuditRun,
          auditLogCreate]

/-- A user of tenant `tenant-a` used to witness the cross-tenant check. -/
def witnessUserA : User :=
  { id := "u1", email := "a@acme.com", password := "hash1"
  , tenantId := "tenant-a", isActive := true, role := "admin" }

/-- Witness for C1: the theorem applied to a concrete one-user store and a
request resolved to a different tenant. -/
theorem authenticate_cross_tenant_forbidden_witness :
    (authenticate [witnessUserA] true [] (TokenCheck.valid "u1")
        (some "tenant-b") "198.51.100.1" "jest" 3).fst
      = AuthOutcome.forbidden "Access denied"
    ∧ (authenticate [witnessUserA] true [] (TokenCheck.valid "u1")
        (some "tenant-b") "198.51.100.1" "jest" 3).snd
      = [] ++ [crossTenantAuditEntry "tenant-b" witnessUserA "198.51.100.1" "jest" 3]
    ∧ (authenticate [witnessUserA] true [] (TokenCheck.valid "u1")
        (some "tenant-b") "198.51.100.1" "jest" 3).snd.length
      = List.length ([] : List AuditEntry) + 1
    ∧ ("requestedTenant", "tenant-b")
        ∈ (crossTenantAuditEntry "tenant-b" witnessUserA "198.51.100.1" "jest" 3).details
    ∧ ("userTenant", witnessUserA.tenantId)
        ∈ (crossTenantAuditEntry "tenant-b" witnessUserA "198.51.100.1" "jest" 3).details
    ∧ (authenticate [witnessUserA] false [] (TokenCheck.valid "u1")
        (some "tenant-b") "198.51.100.1" "jest" 3).snd
      = [] := by
  have h := authenticate_cross_tenant_forbidden [witnessUserA] true []
      "u1" "tenant-b" "198.51.100.1" "jest" 3 witnessUserA rfl rfl (by decide)
  exact h

/-- The request fields consumed by `tenantMiddleware`
(`backend/middleware/tenant.js`): the optional `x-tenant-subdomain` header,
the `host` header, and the request path. -/
structure TenantReq where
  headerSubdomain : Option String
  host : String
  path : String
deriving DecidableEq, Repr

/-- Whether the character list `s` begins with `p` (executable model of
JavaScript `String.startsWith` on code points). -/
def charsLead : List Char → List Char → Bool
  | [], _ => true
  | _ :: _, [] => false
  | p :: ps, c :: cs => p == c && charsLead ps cs

/-- `s.startsWith(p)` of JavaScript. -/
def strStartsWith (s p : String) : Bool := charsLead p.toList s.toList

/-- Splitting a character list at every `.` (JavaScript `split('.')`);
always returns at least one piece. -/
def splitDotAux : List Char → List (List Char)
  | [] => [[]]
  | c :: cs =>
    match splitDotAux cs with
    | [] => [[]]
    | h :: t => if c == '.' then [] :: h :: t else (c :: h) :: t

/-- `host.split('.')` of JavaScript. -/
def splitOnDot (s : String) : List String :=
  (splitDotAux s.toList).map (fun cs => ⟨cs⟩)

/-- Host-based candidate extraction: `host.split('.')`, taking `parts[0]`
whenever the host has at least two dot-separated labels.  The source has no
`localhost` / `www` filter here (only the frontend `getSubdomain` filters
them). -/
def hostSubdomain (host : String) : Option String :=
  let parts := splitOnDot host
  if parts.length ≥ 2 then parts.head? else none

/-- Candidate subdomain: the explicit header when truthy, else the host
label. -/
def resolveSubdomain (r : TenantReq) : Option String :=
  match r.headerSubdomain with
  | some s => if truthyStr s then some s else hostSubdomain r.host
  | none => hostSubdomain r.host

/-- `Tenant.findOne({ subdomain, isActive: true })`. -/
def findActiveTenant (tenants : List Tenant) (sub : String) : Option Tenant :=
  tenants.find? (fun t => t.subdomain == sub && t.isActive)

/-- `tenantMiddleware` (`backend/middleware/tenant.js`): resolve the
candidate subdomain, skip the directory lookup for `/api/auth/` paths,
continue without a tenant when the database is down, and otherwise set the
request tenant context exactly when an active tenant matches. -/
def tenantMiddleware (tenants : List Tenant) (dbOk : Bool) (r : TenantReq) :
    Option Tenant :=
  match resolveSubdomain r with
  | some sub =>
    if truthyStr sub && !(strStartsWith r.path "/api/auth/") then
      if dbOk then findActiveTenant tenants sub else none
    else none
  | none => none

/-- An active tenant registered under the subdomain `www`. -/
def wwwTenant : Tenant :=
  { id := "t-www", subdomain := "www", name := "World Wide", isActive := true }

/-- Claim C5, divergence on the code: the backend resolver takes the first
host label as candidate even when it is `www` (or `localhost`) — for host
`www.example.com`, the request resolves to the active tenant registered
under `www`, although the spec (and the comment over the second copy of the
middleware) says that label must be rejected. -/
theorem tenantMiddleware_www_is_candidate :
    tenantMiddleware [wwwTenant] true
        { headerSubdomain := none, host := "www.example.com", path := "/api/calls" }
      = some wwwTenant
    ∧ resolveSubdomain
        { headerSubdomain := none, host := "localhost.localdomain", path := "/api/calls" }
      = some "localhost" :=
  ⟨rfl, rfl⟩

/-- The header-preference and active-only-lookup parts of claim C5, which
the code does satisfy: a truthy explicit header wins over the host; the
lookup filters on `isActive`, so an inactive tenant never resolves; and on
a healthy database a non-auth-path request resolves exactly when an active
tenant matches the candidate. -/
theorem tenantMiddleware_header_and_active
    (tenants : List Tenant) (hdr host path : String)
    (htr : truthyStr hdr = true) :
    resolveSubdomain { headerSubdomain := some hdr, host := host, path := path }
      = some hdr
    ∧ (∀ t, findActiveTenant tenants hdr = some t → t.isActive = true ∧ t.subdomain = hdr)
    ∧ (strStartsWith path "/api/auth/" = false →
        tenantMiddleware tenants true
            { headerSubdomain := some hdr, host := host, path := path }
          = findActiveTenant tenants hdr) := by
  refine ⟨?_, ?_, ?_⟩
  · simp [resolveSubdomain, htr]
  · intro t hfind
    have hp := List.find?_some hfind
    simp only [Bool.and_eq_true, beq_iff_eq] at hp
    exact ⟨hp.2, hp.1⟩
  · intro hpath
    simp [tenantMiddleware, resolveSubdomain, htr, hpath]

/-- Witness for the header-preference theorem at a concrete request. -/
theorem tenantMiddleware_header_and_active_witness :
    resolveSubdomain
        { headerSubdomain := some "acme", host := "app.voho.io", path := "/api/calls" }
      = some "acme"
    ∧ (∀ t, findActiveTenant [wwwTenant] "acme" = some t →
          t.isActive = true ∧ t.subdomain = "acme")
    ∧ (strStartsWith "/api/calls" "/api/auth/" = false →
        tenantMiddleware [wwwTenant] true
            { headerSubdomain := some "acme", host := "app.voho.io", path := "/api/calls" }
          = findActiveTenant [wwwTenant] "acme") :=
  tenantMiddleware_header_and_active [wwwTenant] "acme" "app.voho.io" "/api/calls" (by decide)

/-- Provider status payload (`ultravox.getCallStatus` / `mockGetCallStatus`):
`{ status, duration?, recordingUrl? }`.  `duration` and `recordingUrl` may
be absent or `null`. -/
structure ProviderStatus where
  status : String
  duration : Option Int
  recordingUrl : Option String
deriving DecidableEq, Repr

/-- An entry of a Call's `events` array: type string, timestamp, and the
full provider payload pushed as `data`. -/
structure CallEvent where
  type : String
  timestamp : Nat
  data : ProviderStatus
deriving DecidableEq, Repr

/-- One utterance of a transcript: `{speaker, text, timestamp}`. -/
structure TranscriptEntry where
  speaker : String
  text : String
  timestamp : String
deriving DecidableEq, Repr

/-- Call record (`backend/models/Call.js`).  The cached transcript is the
structural value whose `JSON.stringify` the source stores (serialization
modelled as the identity round trip). -/
structure Call where
  id : String
  tenantId : String
  userId : String
  ultravoxCallId : String
  status : String
  events : List CallEvent
  recordingUrl : Option String
  transcript : Option (List TranscriptEntry)
  duration : Option Int
deriving DecidableEq, Repr

/-- `Call.findOne({ _id: req.params.id, tenantId: req.tenantId })` — the
tenant-scoped lookup of the call routes (first matching document). -/
def findTenantCall (calls : List Call) (cid tid : String) : Option Call :=
  match calls with
  | [] => none
  | c :: rest =>
    if c.id == cid && c.tenantId == tid then some c
    else findTenantCall rest cid tid

/-- A call found by the tenant-scoped lookup carries the queried id and
tenant id. -/
theorem findTenantCall_fields (cid tid : String) (c : Call) :
    ∀ calls : List Call, findTenantCall calls cid tid = some c →
      c.id = cid ∧ c.tenantId = tid := by
  intro calls
  induction calls with
  | nil => intro h; simp [findTenantCall] at h
  | cons x xs ih =>
    intro h
    by_cases hx : (x.id == cid && x.tenantId == tid) = true
    · have hx2 := hx
      simp only [Bool.and_eq_true, beq_iff_eq] at hx2
      have hxeq : x = c := by
        simpa [findTenantCall, hx] using h
      exact hxeq ▸ ⟨hx2.1, hx2.2⟩
    · have h' : findTenantCall xs cid tid = some c := by
        simpa [findTenantCall, hx] using h
      exact ih h'

/-- `call.save()`: persist the updated document under its id. -/
def saveCall (calls : List Call) (c : Call) : List Call :=
  calls.map (fun x => if x.id == c.id then c else x)

/-- The status-changed branch of `GET /api/calls/:id/status`: set the new
status, push one `status.<newStatus>` event carrying the full provider
payload, and copy `duration` / `recordingUrl` under JS truthiness
(`if (status.duration) ...`, so `0`, `""` and `null` are not copied). -/
def reconcileCall (c : Call) (st : ProviderStatus) (now : Nat) : Call :=
  { c with
    status := st.status
  , events := c.events ++ [{ type := "status." ++ st.status, timestamp := now, data := st }]
  , duration := if truthyOptInt st.duration then st.duration else c.duration
  , recordingUrl := if truthyOptStr st.recordingUrl then st.recordingUrl else c.recordingUrl }

/-- The `{ callId, status, duration, recordingUrl, events }` view returned
by the status route. -/
structure CallStatusView where
  callId : String
  status : String
  duration : Option Int
  recordingUrl : Option String
  events : List CallEvent
deriving DecidableEq, Repr

/-- Build the response view from a call record. -/
def callStatusView (c : Call) : CallStatusView :=
  { callId := c.id, status := c.status, duration := c.duration
  , recordingUrl := c.recordingUrl, events := c.events }

/-- Outcome of the status route: 200 with the view, 404, or the error
passed to `next(error)` by the route's catch block. -/
inductive StatusRouteResult where
  | ok (view : CallStatusView)
  | notFound
  | routeError (msg : String)
deriving DecidableEq, Repr

/-- Detail rendering of an optional duration in the `call.completed` audit
entry. -/
def durationDetail : Option Int → String
  | none => "null"
  | some n => toString n

/-- The `call.completed` audit entry `GET /:id/status` writes when the
reconciled status is `completed`. -/
def callCompletedEntry (tid uid callDbId : String) (dur : Option Int)
    (ip ua : String) (now : Nat) : AuditEntry :=
  { tenantId := some tid
  , userId := some uid
  , action := "call.completed"
  , details := [("callId", callDbId), ("duration", durationDetail dur)]
  , ip := ip
  , userAgent := ua
  , timestamp := now }

/-- `GET /api/calls/:id/status` (`backend/routes/calls.js`): tenant-scoped
lookup, provider poll, reconcile-on-difference, persist, audit completed
calls.  A provider failure (`getCallStatus` rethrows) escapes to the
route's catch block and is passed to `next(error)`.  Returns the HTTP
outcome, the call store, and the audit log. -/
def getStatusRoute (calls : List Call) (log : List AuditEntry) (auditOk : Bool)
    (reqTenantId reqUserId reqCallId : String)
    (provider : Except String ProviderStatus) (ip ua : String) (now : Nat) :
    StatusRouteResult × List Call × List AuditEntry :=
  match findTenantCall calls reqCallId reqTenantId with
  | none => (StatusRouteResult.notFound, calls, log)
  | some c =>
    match provider with
    | Except.error m => (StatusRouteResult.routeError m, calls, log)
    | Except.ok st =>
      if st.status != c.status then
        let c2 := reconcileCall c st now
        let log2 :=
          if st.status == "completed" then
            logAudit auditOk log (callCompletedEntry reqTenantId reqUserId c.id st.duration ip ua now)
          else log
        (StatusRouteResult.ok (callStatusView c2), saveCall calls c2, log2)
      else (StatusRouteResult.ok (callStatusView c), calls, log)

/-- Persisting a call whose `_id`/`tenantId` match the tenant-scoped query
makes the subsequent tenant-scoped lookup return the saved document. -/
theorem findTenantCall_saveCall (cid tid : String) (c c2 : Call)
    (hid : c2.id = cid) (htid : c2.tenantId = tid) :
    ∀ calls : List Call, findTenantCall calls cid tid = some c →
      findTenantCall (saveCall calls c2) cid tid = some c2 := by
  intro calls
  induction calls with
  | nil => intro h; simp [findTenantCall] at h
  | cons x xs ih =>
    intro h
    have hpredc2 : (c2.id == cid && c2.tenantId == tid) = true := by
      simp [hid, htid]
    by_cases hxid : (x.id == c2.id) = true
    · simp [saveCall, findTenantCall, hxid, hpredc2]
    · have hx : ¬ ((x.id == cid && x.tenantId == tid) = true) := by
        intro hx
        apply hxid
        have h1 : x.id = cid := by
          have := (Bool.and_eq_true _ _).mp hx
          exact beq_iff_eq.mp this.1
        simp [h1, hid]
      have h' : findTenantCall xs cid tid = some c := by
        simpa [findTenantCall, hx] using h
      simpa [saveCall, findTenantCall, hxid, hx] using ih h'

/-- The property bundle proved about the status route's reconciliation
(amended claim C2): exactly one `status.<newStatus>` event carrying the
full provider payload is appended when the provider status differs, the
stored status is updated, truthy `duration` / `recordingUrl` are copied,
the call is persisted; an unchanged provider status leaves the stored call
untouched, and an immediate second invocation with the same provider
status writes nothing further. -/
def getStatusReconcileSpec (calls : List Call) (log : List AuditEntry)
    (auditOk : Bool) (tid uid cid : String) (st : ProviderStatus)
    (ip ua : String) (now now2 : Nat) (c : Call) : Prop :=
  let r := getStatusRoute calls log auditOk tid uid cid (Except.ok st) ip ua now
  (st.status ≠ c.status →
      r.1 = StatusRouteResult.ok (callStatusView (reconcileCall c st now))
      ∧ r.2.1 = saveCall calls (reconcileCall c st now)
      ∧ (reconcileCall c st now).events
          = c.events ++ [{ type := "status." ++ st.status, timestamp := now, data := st }]
      ∧ (reconcileCall c st now).status = st.status
      ∧ (truthyOptInt st.duration = true → (reconcileCall c st now).duration = st.duration)
      ∧ (truthyOptStr st.recordingUrl = true →
          (reconcileCall c st now).recordingUrl = st.recordingUrl))
  ∧ (st.status = c.status → r = (StatusRouteResult.ok (callStatusView c), calls, log))
  ∧ (getStatusRoute r.2.1 r.2.2 auditOk tid uid cid (Except.ok st) ip ua now2).2.1 = r.2.1
  ∧ (getStatusRoute r.2.1 r.2.2 auditOk tid uid cid (Except.ok st) ip ua now2).2.2 = r.2.2

/-- Claim C2 (amended): reconciliation behaviour of
`GET /api/calls/:id/status` on a call owned by the requesting tenant. -/
theorem getStatus_reconciliation (calls : List Call) (log : List AuditEntry)
    (auditOk : Bool) (tid uid cid : String) (st : ProviderStatus)
    (ip ua : String) (now now2 : Nat) (c : Call)
    (hfind : findTenantCall calls cid tid = some c) :
    getStatusReconcileSpec calls log auditOk tid uid cid st ip ua now now2 c := by
  obtain ⟨hcid, hctid⟩ := findTenantCall_fields cid tid c calls hfind
  unfold getStatusReconcileSpec
  by_cases hst : st.status = c.status
  · have hbne : (st.status != c.status) = false := by simp [bne_iff_ne, hst]
    have hr : getStatusRoute calls log auditOk tid uid cid (Except.ok st) ip ua now
        = (StatusRouteResult.ok (callStatusView c), calls, log) := by
      unfold getStatusRoute
      rw [hfind]
      simp [hbne]
    refine ⟨fun hne => absurd hst hne, fun _ => hr, ?_, ?_⟩
    · rw [hr]
      unfold getStatusRoute
      rw [hfind]
      simp [hbne]
    · rw [hr]
      unfold getStatusRoute
      rw [hfind]
      simp [hbne]
  · have hbne : (st.status != c.status) = true := bne_iff_ne.mpr hst
    have hr : getStatusRoute calls log auditOk tid uid cid (Except.ok st) ip ua now
        = (StatusRouteResult.ok (callStatusView (reconcileCall c st now)),
           saveCall calls (reconcileCall c st now),
           if st.status == "completed" then
             logAudit auditOk log (callCompletedEntry tid uid c.id st.duration ip ua now)
           else log) := by
      unfold getStatusRoute
      rw [hfind]
      simp [hbne]
    have hfind2 : findTenantCall (saveCall calls (reconcileCall c st now)) cid tid
        = some (reconcileCall c st now) :=
      findTenantCall_saveCall cid tid c (reconcileCall c st now)
        (by simpa [reconcileCall] using hcid)
        (by simpa [reconcileCall] using hctid) calls hfind
    have hbne2 : (st.status != (reconcileCall c st now).status) = false := by
      simp [reconcileCall, bne_iff_ne]
    refine ⟨fun _ => ⟨?_, ?_, rfl, rfl, ?_, ?_⟩, fun heq => absurd heq hst, ?_, ?_⟩
    · rw [hr]
    · rw [hr]
    · intro h; simp [reconcileCall, h]
    · intro h; simp [reconcileCall, h]
    · rw [hr]
      unfold getStatusRoute
      rw [hfind2]
      simp [hbne2]
    · rw [hr]
      unfold getStatusRoute
      rw [hfind2]
      simp [hbne2]

/-- A freshly created queued call used as concrete input. -/
def reconcileWitnessCall : Call :=
  { id := "call-1", tenantId := "tenant-a", userId := "u1"
  , ultravoxCallId := "uv-1", status := "queued", events := []
  , recordingUrl := none, transcript := none, duration := none }

/-- A provider report moving the witness call to `ringing`. -/
def reconcileWitnessStatus : ProviderStatus :=
  { status := "ringing", duration := none, recordingUrl := none }

/-- Witness for the amended C2 at a concrete store and provider report. -/
theorem getStatus_reconciliation_witness :
    getStatusReconcileSpec [reconcileWitnessCall] [] true "tenant-a" "u1" "call-1"
      reconcileWitnessStatus "198.51.100.1" "jest" 4 9 reconcileWitnessCall :=
  getStatus_reconciliation [reconcileWitnessCall] [] true "tenant-a" "u1" "call-1"
    reconcileWitnessStatus "198.51.100.1" "jest" 4 9 reconcileWitnessCall (by decide)

/-- An in-progress call with no recorded duration yet. -/
def staleDurationCall : Call :=
  { id := "call-2", tenantId := "tenant-a", userId := "u1"
  , ultravoxCallId := "uv-2", status := "in_progress", events := []
  , recordingUrl := none, transcript := none, duration := none }

/-- A provider report completing the call with a supplied duration of `0`
seconds (the mock provider draws `Math.floor(Math.random() * 300)`, which
can be `0`). -/
def zeroDurationStatus : ProviderStatus :=
  { status := "completed", duration := some 0, recordingUrl := none }

/-- Counterexample to claim C2 as stated: the provider supplied a duration
(`0` seconds) alongside a changed status, the event is appended, but
`if (status.duration)` is falsy at `0`, so the stored call keeps
`duration: none` — the supplied duration is not copied. -/
theorem getStatus_zero_duration_not_copied :
    zeroDurationStatus.duration = some 0
    ∧ (getStatusRoute [staleDurationCall] [] false "tenant-a" "u1" "call-2"
        (Except.ok zeroDurationStatus) "198.51.100.1" "jest" 5).2.1.map Call.duration
      = [none]
    ∧ (getStatusRoute [staleDurationCall] [] false "tenant-a" "u1" "call-2"
        (Except.ok zeroDurationStatus) "198.51.100.1" "jest" 5).2.1.map Call.status
      = ["completed"]
    ∧ (getStatusRoute [staleDurationCall] [] false "tenant-a" "u1" "call-2"
        (Except.ok zeroDurationStatus) "198.51.100.1" "jest" 5).2.1.map
          (fun c => c.events.length)
      = [1] := by
  refine ⟨rfl, ?_, ?_, ?_⟩ <;> rfl

/-- Claim C3 (amended): when the provider poll fails, `getCallStatus`
rethrows, the route's try/catch passes the error to `next(error)`, and no
write is performed on the call record or the audit log. -/
theorem getStatus_provider_error_propagates (calls : List Call)
    (log : List AuditEntry) (auditOk : Bool) (tid uid cid m ip ua : String)
    (now : Nat) (c : Call)
    (hfind : findTenantCall calls cid tid = some c) :
    getStatusRoute calls log auditOk tid uid cid (Except.error m) ip ua now
      = (StatusRouteResult.routeError m, calls, log) := by
  unfold getStatusRoute
  rw [hfind]

/-- Witness for the amended C3 at a concrete store. -/
theorem getStatus_provider_error_propagates_witness :
    getStatusRoute [reconcileWitnessCall] [] true "tenant-a" "u1" "call-1"
        (Except.error "fetch failed") "198.51.100.1" "jest" 6
      = (StatusRouteResult.routeError "fetch failed", [reconcileWitnessCall], []) :=
  getStatus_provider_error_propagates [reconcileWitnessCall] [] true
    "tenant-a" "u1" "call-1" "fetch failed" "198.51.100.1" "jest" 6
    reconcileWitnessCall (by decide)

/-- Counterexample to claim C3 as stated: on a provider failure the route
does not return a success result with the stale stored status — the error
escapes to `next(error)`. -/
theorem getStatus_provider_error_not_stale_success :
    (getStatusRoute [staleDurationCall] [] true "tenant-a" "u1" "call-2"
        (Except.error "network down") "198.51.100.1" "jest" 7).1
      = StatusRouteResult.routeError "network down"
    ∧ (getStatusRoute [staleDurationCall] [] true "tenant-a" "u1" "call-2"
        (Except.error "network down") "198.51.100.1" "jest" 7).1
      ≠ StatusRouteResult.ok (callStatusView staleDurationCall) := by
  refine ⟨rfl, ?_⟩
  intro h
  simp [getStatusRoute, findTenantCall, staleDurationCall, callStatusView] at h

/-- `queued → ringing → in_progress → {completed | failed | ended}` rank in
the call state machine of the spec. -/
def stateRank (s : String) : Nat :=
  if s = "queued" then 0
  else if s = "ringing" then 1
  else if s = "in_progress" then 2
  else 3

/-- Whether a status is terminal in the spec state machine. -/
def isTerminalStatus (s : String) : Bool :=
  s == "completed" || s == "failed" || s == "ended"

/-- The call record as stored after one run of the status route: the
reconciled document when the provider status differs, the untouched one
otherwise. -/
def updatedCall (c : Call) (st : ProviderStatus) (now : Nat) : Call :=
  if st.status != c.status then reconcileCall c st now else c

/-- Timestamps of an event list are nondecreasing in list (append) order. -/
def eventsOrdered (l : List CallEvent) : Prop :=
  l.Pairwise (fun a b => a.timestamp ≤ b.timestamp)

/-- A completed call with one completion event, used as concrete input. -/
def completedCall : Call :=
  { id := "call-3", tenantId := "tenant-a", userId := "u1"
  , ultravoxCallId := "uv-3", status := "completed"
  , events := [{ type := "status.completed", timestamp := 3
               , data := { status := "completed", duration := some 42
                         , recordingUrl := none } }]
  , recordingUrl := none, transcript := none, duration := some 42 }

/-- A provider report regressing to `queued` (the mock provider draws a
uniformly random status on every poll). -/
def regressionStatus : ProviderStatus :=
  { status := "queued", duration := none, recordingUrl := none }

/-- Counterexample to claim C8 as stated: reconciliation performs no
transition validation, so a provider report of `queued` on a `completed`
call is recorded — the stored status leaves a terminal state and moves
backwards in the state machine. -/
theorem getStatus_leaves_terminal_state :
    isTerminalStatus completedCall.status = true
    ∧ (getStatusRoute [completedCall] [] false "tenant-a" "u1" "call-3"
        (Except.ok regressionStatus) "198.51.100.1" "jest" 9).2.1.map Call.status
      = ["queued"]
    ∧ stateRank "queued" < stateRank completedCall.status := by
  refine ⟨rfl, rfl, ?_⟩
  decide

/-- Claim C8 (amended): the status route records exactly the provider's
reported status (no transition validation), the event list is strictly
append-only with the appended event timestamped at the write, ordering is
preserved when the new timestamp is not older than the existing ones, and
stored statuses are monotone in the state machine whenever the provider's
reports are. -/
theorem getStatus_append_only_and_records_provider (calls : List Call)
    (log : List AuditEntry) (auditOk : Bool) (tid uid cid ip ua : String)
    (st : ProviderStatus) (now : Nat) (c : Call)
    (hfind : findTenantCall calls cid tid = some c) :
    (getStatusRoute calls log auditOk tid uid cid (Except.ok st) ip ua now).1
        = StatusRouteResult.ok (callStatusView (updatedCall c st now))
    ∧ (updatedCall c st now).status = st.status
    ∧ ((updatedCall c st now).events = c.events
        ∨ (updatedCall c st now).events
            = c.events ++ [{ type := "status." ++ st.status, timestamp := now, data := st }])
    ∧ (stateRank c.status ≤ stateRank st.status →
        stateRank c.status ≤ stateRank (updatedCall c st now).status)
    ∧ (eventsOrdered c.events → (∀ e ∈ c.events, e.timestamp ≤ now) →
        eventsOrdered (updatedCall c st now).events) := by
  by_cases hst : st.status = c.status
  · have hbne : (st.status != c.status) = false := by simp [bne_iff_ne, hst]
    refine ⟨?_, ?_, Or.inl ?_, ?_, ?_⟩
    · unfold getStatusRoute updatedCall
      rw [hfind]
      simp [hbne]
    · simp [updatedCall, hbne, hst]
    · simp [updatedCall, hbne]
    · intro hmono
      simp [updatedCall, hbne, hst]
    · intro hord _
      simpa [updatedCall, hbne] using hord
  · have hbne : (st.status != c.status) = true := bne_iff_ne.mpr hst
    refine ⟨?_, ?_, Or.inr ?_, ?_, ?_⟩
    · unfold getStatusRoute updatedCall
      rw [hfind]
      simp [hbne]
    · simp [updatedCall, hbne, reconcileCall]
    · simp [updatedCall, hbne, reconcileCall]
    · intro hmono
      simpa [updatedCall, hbne, reconcileCall] using hmono
    · intro hord hle
      simp only [updatedCall, hbne, if_pos, reconcileCall, eventsOrdered]
      rw [List.pairwise_append]
      refine ⟨hord, by simp, ?_⟩
      intro a ha b hb
      simp only [List.mem_singleton] at hb
      subst hb
      exact hle a ha

/-- Witness for the amended C8 at a concrete store and provider report. -/
theorem getStatus_append_only_witness :
    (getStatusRoute [completedCall] [] true "tenant-a" "u1" "call-3"
        (Except.ok regressionStatus) "198.51.100.1" "jest" 9).1
        = StatusRouteResult.ok (callStatusView (updatedCall completedCall regressionStatus 9))
    ∧ (updatedCall completedCall regressionStatus 9).status = regressionStatus.status
    ∧ ((updatedCall completedCall regressionStatus 9).events = completedCall.events
        ∨ (updatedCall completedCall regressionStatus 9).events
            = completedCall.events
                ++ [{ type := "status." ++ regressionStatus.status, timestamp := 9
                    , data := regressionStatus }])
    ∧ (stateRank completedCall.status ≤ stateRank regressionStatus.status →
        stateRank completedCall.status
          ≤ stateRank (updatedCall completedCall regressionStatus 9).status)
    ∧ (eventsOrdered completedCall.events →
        (∀ e ∈ completedCall.events, e.timestamp ≤ 9) →
        eventsOrdered (updatedCall completedCall regressionStatus 9).events) :=
  getStatus_append_only_and_records_provider [completedCall] [] true "tenant-a"
    "u1" "call-3" "198.51.100.1" "jest" regressionStatus 9 completedCall (by decide)

/-- Provider transcript payload (`getCallTranscript` /
`mockGetCallTranscript`): `null` models both "no transcript yet" and a
provider failure, which the client maps to `null`. -/
structure TranscriptData where
  callId : String
  transcript : List TranscriptEntry
deriving DecidableEq, Repr

/-- Response of `GET /api/calls/:id/transcript`: the deserialized cached
transcript, the freshly fetched payload, the `transcript: null` marker, or
404. -/
inductive TranscriptRouteResult where
  | okCached (t : List TranscriptEntry)
  | okFetched (d : TranscriptData)
  | unavailable
  | notFound
deriving DecidableEq, Repr

/-- The transcript content carried by a route response. -/
def transcriptContent : TranscriptRouteResult → Option (List TranscriptEntry)
  | TranscriptRouteResult.okCached t => some t
  | TranscriptRouteResult.okFetched d => some d.transcript
  | TranscriptRouteResult.unavailable => none
  | TranscriptRouteResult.notFound => none

/-- `GET /api/calls/:id/transcript` (`backend/routes/calls.js`):
tenant-scoped lookup; if a transcript is cached on the call, return it
without contacting the provider; otherwise fetch, and on success cache the
serialized transcript on the call and persist it.  The returned `Bool`
records whether the provider was contacted. -/
def getTranscriptRoute (calls : List Call) (reqTenantId reqCallId : String)
    (provider : Option TranscriptData) :
    TranscriptRouteResult × List Call × Bool :=
  match findTenantCall calls reqCallId reqTenantId with
  | none => (TranscriptRouteResult.notFound, calls, false)
  | some c =>
    match c.transcript with
    | some t => (TranscriptRouteResult.okCached t, calls, false)
    | none =>
      match provider with
      | some d =>
        (TranscriptRouteResult.okFetched d,
         saveCall calls { c with transcript := some d.transcript }, true)
      | none => (TranscriptRouteResult.unavailable, calls, true)

/-- Claim C4: the first successful transcript fetch stores the transcript
on the call as a one-way cache fill; any later invocation for the same
call returns the same transcript content without contacting the provider
and without writing; and in general a cache-hit never contacts the
provider. -/
theorem getTranscript_cache (calls : List Call) (tid cid : String)
    (c : Call) (d : TranscriptData)
    (hfind : findTenantCall calls cid tid = some c)
    (hmiss : c.transcript = none) :
    (getTranscriptRoute calls tid cid (some d)).1 = TranscriptRouteResult.okFetched d
    ∧ (getTranscriptRoute calls tid cid (some d)).2.2 = true
    ∧ findTenantCall (getTranscriptRoute calls tid cid (some d)).2.1 cid tid
        = some { c with transcript := some d.transcript }
    ∧ (∀ p2 : Option TranscriptData,
        getTranscriptRoute (getTranscriptRoute calls tid cid (some d)).2.1 tid cid p2
          = (TranscriptRouteResult.okCached d.transcript,
             (getTranscriptRoute calls tid cid (some d)).2.1, false))
    ∧ (∀ p2 : Option TranscriptData,
        transcriptContent
            (getTranscriptRoute (getTranscriptRoute calls tid cid (some d)).2.1 tid cid p2).1
          = transcriptContent (getTranscriptRoute calls tid cid (some d)).1)
    ∧ (∀ (calls2 : List Call) (c2 : Call) (t : List TranscriptEntry)
          (p2 : Option TranscriptData),
        findTenantCall calls2 cid tid = some c2 → c2.transcript = some t →
          getTranscriptRoute calls2 tid cid p2
            = (TranscriptRouteResult.okCached t, calls2, false)) := by
  obtain ⟨hcid, hctid⟩ := findTenantCall_fields cid tid c calls hfind
  have hroute : getTranscriptRoute calls tid cid (some d)
      = (TranscriptRouteResult.okFetched d,
         saveCall calls { c with transcript := some d.transcript }, true) := by
    unfold getTranscriptRoute
    rw [hfind]
    simp [hmiss]
  have hfind2 : findTenantCall
      (saveCall calls { c with transcript := some d.transcript }) cid tid
      = some { c with transcript := some d.transcript } :=
    findTenantCall_saveCall cid tid c { c with transcript := some d.transcript }
      hcid hctid calls hfind
  have hcachehit : ∀ (calls2 : List Call) (c2 : Call) (t : List TranscriptEntry)
      (p2 : Option TranscriptData),
      findTenantCall calls2 cid tid = some c2 → c2.transcript = some t →
        getTranscriptRoute calls2 tid cid p2
          = (TranscriptRouteResult.okCached t, calls2, false) := by
    intro calls2 c2 t p2 hf2 hc2
    unfold getTranscriptRoute
    rw [hf2]
    simp [hc2]
  refine ⟨by rw [hroute], by rw [hroute], by rw [hroute]; exact hfind2, ?_, ?_, hcachehit⟩
  · intro p2
    rw [hroute]
    exact hcachehit _ _ d.transcript p2 hfind2 rfl
  · intro p2
    rw [hroute]
    rw [hcachehit _ _ d.transcript p2 hfind2 rfl]
    simp [transcriptContent]

/-- A call with no transcript yet, used as concrete input for C4. -/
def transcriptMissCall : Call :=
  { id := "call-4", tenantId := "tenant-a", userId := "u1"
  , ultravoxCallId := "uv-4", status := "completed", events := []
  , recordingUrl := none, transcript := none, duration := some 42 }

/-- The canned transcript the mock provider returns. -/
def cannedTranscript : TranscriptData :=
  { callId := "uv-4"
  , transcript := [{ speaker := "AI", text := "Hello! How can I help you today?"
                   , timestamp := "00:00:01" }] }

/-- Witness for C4 at a concrete one-call store and provider payload. -/
theorem getTranscript_cache_witness :
    (getTranscriptRoute [transcriptMissCall] "tenant-a" "call-4"
        (some cannedTranscript)).1 = TranscriptRouteResult.okFetched cannedTranscript
    ∧ (getTranscriptRoute [transcriptMissCall] "tenant-a" "call-4"
        (some cannedTranscript)).2.2 = true
    ∧ findTenantCall (getTranscriptRoute [transcriptMissCall] "tenant-a" "call-4"
        (some cannedTranscript)).2.1 "call-4" "tenant-a"
        = some { transcriptMissCall with transcript := some cannedTranscript.transcript }
    ∧ (∀ p2 : Option TranscriptData,
        getTranscriptRoute (getTranscriptRoute [transcriptMissCall] "tenant-a" "call-4"
            (some cannedTranscript)).2.1 "tenant-a" "call-4" p2
          = (TranscriptRouteResult.okCached cannedTranscript.transcript,
             (getTranscriptRoute [transcriptMissCall] "tenant-a" "call-4"
                (some cannedTranscript)).2.1, false))
    ∧ (∀ p2 : Option TranscriptData,
        transcriptContent
            (getTranscriptRoute (getTranscriptRoute [transcriptMissCall] "tenant-a" "call-4"
                (some cannedTranscript)).2.1 "tenant-a" "call-4" p2).1
          = transcriptContent (getTranscriptRoute [transcriptMissCall] "tenant-a" "call-4"
                (some cannedTranscript)).1)
    ∧ (∀ (calls2 : List Call) (c2 : Call) (t : List TranscriptEntry)
          (p2 : Option TranscriptData),
        findTenantCall calls2 "call-4" "tenant-a" = some c2 → c2.transcript = some t →
          getTranscriptRoute calls2 "tenant-a" "call-4" p2
            = (TranscriptRouteResult.okCached t, calls2, false)) :=
  getTranscript_cache [transcriptMissCall] "tenant-a" "call-4" transcriptMissCall
    cannedTranscript (by decide) rfl

/-- The persistent state touched by the auth routes. -/
structure Store where
  tenants : List Tenant
  users : List User
  audit : List AuditEntry
deriving DecidableEq, Repr

/-- Body of `POST /api/auth/signup`; a missing field is the empty (falsy)
string. -/
structure SignupReq where
  email : String
  password : String
  subdomain : String
  tenantName : String
deriving DecidableEq, Repr

/-- Outcome of the signup route: 400 validation error, 400 "Subdomain
already taken" (the `Conflict` kind of the spec taxonomy), 201 with a
token binding `(userId, tenantId)`, or an error passed to `next(error)`. -/
inductive SignupResult where
  | badRequest (msg : String)
  | conflict
  | created (userId : String) (tenantId : String)
  | serverError
deriving DecidableEq, Repr

/-- The `tenant.created` audit entry of signup. -/
def tenantCreatedEntry (tid uid : String) (r : SignupReq) (ip ua : String)
    (now : Nat) : AuditEntry :=
  { tenantId := some tid, userId := some uid, action := "tenant.created"
  , details := [("subdomain", r.subdomain), ("tenantName", r.tenantName)]
  , ip := ip, userAgent := ua, timestamp := now }

/-- The `user.signup` audit entry of signup. -/
def userSignupEntry (tid uid : String) (r : SignupReq) (ip ua : String)
    (now : Nat) : AuditEntry :=
  { tenantId := some tid, userId := some uid, action := "user.signup"
  , details := [("email", r.email), ("role", "admin")]
  , ip := ip, userAgent := ua, timestamp := now }

/-- `POST /api/auth/signup` (`backend/routes/auth.js`): validate, reject a
taken subdomain, create the tenant, create the admin user, write two audit
entries, and answer 201.  `tenantCreateOk` / `userCreateOk` model the
awaited `create` calls throwing (database failure); a throw escapes to
`next(error)` with no cleanup of what was already persisted. -/
def signup (st : Store) (r : SignupReq)
    (tenantCreateOk userCreateOk auditOk : Bool)
    (newTenantId newUserId ip ua : String) (now : Nat) :
    SignupResult × Store :=
  if !(truthyStr r.email && truthyStr r.password && truthyStr r.subdomain
        && truthyStr r.tenantName) then
    (SignupResult.badRequest "All fields are required", st)
  else if r.password.length < 6 then
    (SignupResult.badRequest "Password must be at least 6 characters", st)
  else
    match st.tenants.find? (fun t => t.subdomain == r.subdomain) with
    | some _ => (SignupResult.conflict, st)
    | none =>
      if !tenantCreateOk then (SignupResult.serverError, st)
      else
        let tenant : Tenant :=
          { id := newTenantId, subdomain := r.subdomain
          , name := r.tenantName, isActive := true }
        let st1 : Store := { st with tenants := st.tenants ++ [tenant] }
        if !userCreateOk then (SignupResult.serverError, st1)
        else
          let user : User :=
            { id := newUserId, email := r.email, password := r.password
            , tenantId := newTenantId, isActive := true, role := "admin" }
          let st2 : Store := { st1 with users := st1.users ++ [user] }
          let log1 := logAudit auditOk st2.audit
            (tenantCreatedEntry newTenantId newUserId r ip ua now)
          let log2 := logAudit auditOk log1
            (userSignupEntry newTenantId newUserId r ip ua now)
          (SignupResult.created newUserId newTenantId, { st2 with audit := log2 })

/-- Every tenant in the store has an admin user of its own. -/
def tenantsHaveAdmin (st : Store) : Prop :=
  ∀ t ∈ st.tenants, ∃ u ∈ st.users, u.tenantId = t.id ∧ u.role = "admin"

/-- Every user in the store belongs to an existing tenant. -/
def usersHaveTenant (st : Store) : Prop :=
  ∀ u ∈ st.users, ∃ t ∈ st.tenants, t.id = u.tenantId

instance (st : Store) : Decidable (tenantsHaveAdmin st) := by
  unfold tenantsHaveAdmin
  infer_instance

instance (st : Store) : Decidable (usersHaveTenant st) := by
  unfold usersHaveTenant
  infer_instance

/-- A well-formed signup request for the tenant `acme`. -/
def acmeSignupReq : SignupReq :=
  { email := "a@acme.com", password := "secret1"
  , subdomain := "acme", tenantName := "Acme" }

/-- Counterexample to claim C6 as stated: on an empty store, a valid
signup whose `User.create` throws after `Tenant.create` succeeded answers
`next(error)` and leaves the freshly created tenant behind with no admin
user — the no-orphan invariant is violated. -/
theorem signup_user_create_failure_orphans_tenant :
    signup { tenants := [], users := [], audit := [] } acmeSignupReq
        true false true "t-acme" "u-acme" "198.51.100.1" "jest" 11
      = (SignupResult.serverError,
         { tenants := [{ id := "t-acme", subdomain := "acme"
                       , name := "Acme", isActive := true }]
         , users := [], audit := [] })
    ∧ ¬ tenantsHaveAdmin
        { tenants := [{ id := "t-acme", subdomain := "acme"
                      , name := "Acme", isActive := true }]
        , users := [], audit := [] } := by
  refine ⟨rfl, ?_⟩
  decide

/-- Appending a tenant together with its admin user preserves the pairing
invariants of the store. -/
theorem store_extend_invariants (st : Store) (T : Tenant) (U : User)
    (log : List AuditEntry) (hT : U.tenantId = T.id) (hrole : U.role = "admin")
    (hta : tenantsHaveAdmin st) (hut : usersHaveTenant st) :
    tenantsHaveAdmin
      { tenants := st.tenants ++ [T], users := st.users ++ [U], audit := log }
    ∧ usersHaveTenant
      { tenants := st.tenants ++ [T], users := st.users ++ [U], audit := log } := by
  constructor
  · intro t ht
    rcases List.mem_append.mp ht with h | h
    · obtain ⟨u, hu, hprop⟩ := hta t h
      exact ⟨u, List.mem_append_left _ hu, hprop⟩
    · have heq : t = T := by simpa using h
      subst heq
      exact ⟨U, List.mem_append_right _ (by simp), hT, hrole⟩
  · intro u hu
    rcases List.mem_append.mp hu with h | h
    · obtain ⟨t, htm, hprop⟩ := hut u h
      exact ⟨t, List.mem_append_left _ htm, hprop⟩
    · have heq : u = U := by simpa using h
      subst heq
      exact ⟨T, List.mem_append_right _ (by simp), hT.symm⟩

/-- Claim C6 (amended): a signup whose subdomain is already taken fails
with the `Conflict` outcome and leaves the store unchanged; and whenever
the `User.create` write does not fail, every outcome of signup preserves
the no-orphan invariants (a user-creation failure after tenant creation is
the one path that leaves an orphaned tenant, as the counterexample
shows). -/
theorem signup_conflict_and_no_orphan (st : Store) (r : SignupReq)
    (tenantCreateOk userCreateOk auditOk : Bool)
    (ntid nuid ip ua : String) (now : Nat)
    (huco : userCreateOk = true) :
    ((st.tenants.find? (fun t => t.subdomain == r.subdomain)).isSome = true →
      (truthyStr r.email && truthyStr r.password && truthyStr r.subdomain
        && truthyStr r.tenantName) = true →
      ¬ (r.password.length < 6) →
      signup st r tenantCreateOk userCreateOk auditOk ntid nuid ip ua now
        = (SignupResult.conflict, st))
    ∧ (tenantsHaveAdmin st → usersHaveTenant st →
        tenantsHaveAdmin
          (signup st r tenantCreateOk userCreateOk auditOk ntid nuid ip ua now).2
        ∧ usersHaveTenant
          (signup st r tenantCreateOk userCreateOk auditOk ntid nuid ip ua now).2) := by
  subst huco
  constructor
  · intro hsome hv hpw
    obtain ⟨t, ht⟩ := Option.isSome_iff_exists.mp hsome
    simp [signup, hv, hpw, ht]
  · intro hta hut
    by_cases hv : (truthyStr r.email && truthyStr r.password
        && truthyStr r.subdomain && truthyStr r.tenantName) = true
    · by_cases hpw : r.password.length < 6
      · have h2 : (signup st r tenantCreateOk true auditOk ntid nuid ip ua now).2 = st := by
          simp [signup, hv, hpw]
        rw [h2]
        exact ⟨hta, hut⟩
      · cases hfind : st.tenants.find? (fun t => t.subdomain == r.subdomain) with
        | some t =>
          have h2 : (signup st r tenantCreateOk true auditOk ntid nuid ip ua now).2 = st := by
            simp [signup, hv, hpw, hfind]
          rw [h2]
          exact ⟨hta, hut⟩
        | none =>
          by_cases htco : tenantCreateOk = true
          · subst htco
            have h2 : (signup st r true true auditOk ntid nuid ip ua now).2
                = { tenants := st.tenants
                      ++ [{ id := ntid, subdomain := r.subdomain
                          , name := r.tenantName, isActive := true }]
                  , users := st.users
                      ++ [{ id := nuid, email := r.email, password := r.password
                          , tenantId := ntid, isActive := true, role := "admin" }]
                  , audit := logAudit auditOk
                      (logAudit auditOk st.audit (tenantCreatedEntry ntid nuid r ip ua now))
                      (userSignupEntry ntid nuid r ip ua now) } := by
              simp [signup, hv, hpw, hfind]
            rw [h2]
            exact store_extend_invariants st _ _ _ rfl rfl hta hut
          · have htco2 : tenantCreateOk = false := by
              cases tenantCreateOk
              · rfl
              · exact absurd rfl htco
            subst htco2
            have h2 : (signup st r false true auditOk ntid nuid ip ua now).2 = st := by
              simp [signup, hv, hpw, hfind]
            rw [h2]
            exact ⟨hta, hut⟩
    · have h2 : (signup st r tenantCreateOk true auditOk ntid nuid ip ua now).2 = st := by
        simp [signup, hv]
      rw [h2]
      exact ⟨hta, hut⟩

/-- The tenant `acme` as stored after its signup. -/
def acmeTenant : Tenant :=
  { id := "t-acme", subdomain := "acme", name := "Acme", isActive := true }

/-- The admin user of `acme`. -/
def acmeAdmin : User :=
  { id := "u-acme", email := "a@acme.com", password := "secret1"
  , tenantId := "t-acme", isActive := true, role := "admin" }

/-- Witness for the amended C6 on a store already holding `acme` and a
second signup requesting the same subdomain. -/
theorem signup_conflict_and_no_orphan_witness :
    (((Store.mk [acmeTenant] [acmeAdmin] []).tenants.find?
          (fun t => t.subdomain == acmeSignupReq.subdomain)).isSome = true →
      (truthyStr acmeSignupReq.email && truthyStr acmeSignupReq.password
        && truthyStr acmeSignupReq.subdomain && truthyStr acmeSignupReq.tenantName) = true →
      ¬ (acmeSignupReq.password.length < 6) →
      signup (Store.mk [acmeTenant] [acmeAdmin] []) acmeSignupReq
          true true true "t-2" "u-2" "198.51.100.1" "jest" 12
        = (SignupResult.conflict, Store.mk [acmeTenant] [acmeAdmin] []))
    ∧ (tenantsHaveAdmin (Store.mk [acmeTenant] [acmeAdmin] []) →
        usersHaveTenant (Store.mk [acmeTenant] [acmeAdmin] []) →
        tenantsHaveAdmin
          (signup (Store.mk [acmeTenant] [acmeAdmin] []) acmeSignupReq
              true true true "t-2" "u-2" "198.51.100.1" "jest" 12).2
        ∧ usersHaveTenant
          (signup (Store.mk [acmeTenant] [acmeAdmin] []) acmeSignupReq
              true true true "t-2" "u-2" "198.51.100.1" "jest" 12).2) :=
  signup_conflict_and_no_orphan (Store.mk [acmeTenant] [acmeAdmin] [])
    acmeSignupReq true true true "t-2" "u-2" "198.51.100.1" "jest" 12 rfl

/-- Outcome of `POST /api/auth/login`: 400, 401 `Invalid credentials`, or
200 with a token binding `(userId, tenantId)`. -/
inductive LoginResult where
  | badRequest (msg : String)
  | invalidCredentials
  | ok (userId : String) (tenantId : String)
deriving DecidableEq, Repr

/-- The `user.failed_login` audit entry of the login route (tenant id taken
from the resolved request tenant). -/
def failedLoginEntry (tid email ip ua : String) (now : Nat) : AuditEntry :=
  { tenantId := some tid, userId := none, action := "user.failed_login"
  , details := [("email", email)], ip := ip, userAgent := ua, timestamp := now }

/-- The `user.login` audit entry of the login route. -/
def userLoginEntry (tid uid email ip ua : String) (now : Nat) : AuditEntry :=
  { tenantId := some tid, userId := some uid, action := "user.login"
  , details := [("email", email)], ip := ip, userAgent := ua, timestamp := now }

/-- `POST /api/auth/login` (`backend/routes/auth.js`): validate, require a
resolved tenant, look the user up by
`{ email, tenantId: req.tenantId, isActive: true }` — the tenant-scoped
lookup — compare the password, audit, and issue the token bound to
`(user._id, tenant._id)`. -/
def login (st : Store) (reqTenantId : Option String) (email password : String)
    (auditOk : Bool) (ip ua : String) (now : Nat) : LoginResult × Store :=
  if !(truthyStr email && truthyStr password) then
    (LoginResult.badRequest "Email and password required", st)
  else
    match reqTenantId with
    | none => (LoginResult.badRequest "Tenant not found", st)
    | some tid =>
      match st.users.find? (fun u => u.email == email && u.tenantId == tid && u.isActive) with
      | none =>
        (LoginResult.invalidCredentials,
         { st with audit := logAudit auditOk st.audit (failedLoginEntry tid email ip ua now) })
      | some u =>
        if u.password == password then
          (LoginResult.ok u.id u.tenantId,
           { st with audit := logAudit auditOk st.audit (userLoginEntry tid u.id email ip ua now) })
        else
          (LoginResult.invalidCredentials,
           { st with audit := logAudit auditOk st.audit (failedLoginEntry tid email ip ua now) })

/-- Claim C7: email uniqueness is tenant-scoped — with two users of
distinct tenants sharing one email address, a login resolved to tenant A
authenticates A's user and a login resolved to tenant B authenticates B's
user, each with its own password, independently of the other's presence in
the store. -/
theorem login_per_tenant_email (ts : List Tenant) (al : List AuditEntry)
    (idA idB e pA pB tA tB rA rB ip ua : String) (auditOk : Bool) (now : Nat)
    (hne : tA ≠ tB) (he : truthyStr e = true)
    (hpA : truthyStr pA = true) (hpB : truthyStr pB = true) :
    (login (Store.mk ts
        [{ id := idA, email := e, password := pA, tenantId := tA
         , isActive := true, role := rA },
         { id := idB, email := e, password := pB, tenantId := tB
         , isActive := true, role := rB }] al)
        (some tA) e pA auditOk ip ua now).1 = LoginResult.ok idA tA
    ∧ (login (Store.mk ts
        [{ id := idA, email := e, password := pA, tenantId := tA
         , isActive := true, role := rA },
         { id := idB, email := e, password := pB, tenantId := tB
         , isActive := true, role := rB }] al)
        (some tB) e pB auditOk ip ua now).1 = LoginResult.ok idB tB := by
  have hneb : (tA == tB) = false := by
    simp [hne]
  constructor
  · simp [login, he, hpA, List.find?]
  · simp [login, he, hpB, List.find?, hneb]

/-- Witness for C7: the tenants `acme` and `beta` each own a user with the
email `shared@mail.com`; both log in against their own tenant. -/
theorem login_per_tenant_email_witness :
    (login (Store.mk []
        [{ id := "u-a", email := "shared@mail.com", password := "hashA"
         , tenantId := "t-a", isActive := true, role := "admin" },
         { id := "u-b", email := "shared@mail.com", password := "hashB"
         , tenantId := "t-b", isActive := true, role := "admin" }] [])
        (some "t-a") "shared@mail.com" "hashA" true "198.51.100.1" "jest" 13).1
      = LoginResult.ok "u-a" "t-a"
    ∧ (login (Store.mk []
        [{ id := "u-a", email := "shared@mail.com", password := "hashA"
         , tenantId := "t-a", isActive := true, role := "admin" },
         { id := "u-b", email := "shared@mail.com", password := "hashB"
         , tenantId := "t-b", isActive := true, role := "admin" }] [])
        (some "t-b") "shared@mail.com" "hashB" true "198.51.100.1" "jest" 13).1
      = LoginResult.ok "u-b" "t-b" :=
  login_per_tenant_email [] [] "u-a" "u-b" "shared@mail.com" "hashA" "hashB"
    "t-a" "t-b" "admin" "admin" "198.51.100.1" "jest" true 13
    (by decide) (by decide) (by decide) (by decide)
